import Mathlib

/-!
Shallow embedding of the agri_iot_simulator core (src/main.rs): the
`SoilMoistureSensor` state machine and the `style_line` renderer.
Rust `f32` moisture values are modelled as exact rationals; the only
numeric operations the code performs on them are `max`, addition of
constants and order comparisons, which the rational model mirrors.
The optional status message returned by `transition` is modelled as an
inductive tag carrying the moisture value interpolated into the Rust
format string, rather than as the formatted text itself.
-/

namespace AgriIot

/-- The possible states of the soil moisture sensor (`DeviceState` in
src/main.rs, lines 12-18). -/
inductive DeviceState where
  | Monitoring
  | Activating
  | Adjusting
  | Idle
  | Error
deriving DecidableEq

/-- The soil moisture sensor with state and animation tracking
(`SoilMoistureSensor` in src/main.rs, lines 21-27). -/
structure SoilMoistureSensor where
  state : DeviceState
  moisture_level : ℚ
  threshold : ℚ
  just_watered : Bool
  animation_frame : Nat
deriving DecidableEq

/-- Creates a new sensor with a given moisture threshold
(`SoilMoistureSensor::new`, src/main.rs lines 31-39). -/
def SoilMoistureSensor.new (threshold : ℚ) : SoilMoistureSensor where
  state := .Monitoring
  moisture_level := 50
  threshold := threshold
  just_watered := false
  animation_frame := 0

/-- The status message optionally returned by a transition step.  Each
constructor stands for one Rust format string, carrying the moisture
value that the code interpolates into it:
`moistureLow m` for "Moisture low ({:.1}%), activating..." (line 53),
`watering m` for "Watering... Moisture now {:.1}%" (line 63),
`moistureOptimal m` for "Moisture optimal ({:.1}%), going idle" (line 69),
`moistureStillLow m` for "Moisture still low ({:.1}%), back to monitoring"
(line 72), `moistureDropping` for "Moisture dropping, back to monitoring"
(line 81) and `errorState` for "Error state, no transitions" (line 88). -/
inductive Msg where
  | moistureLow (m : ℚ)
  | watering (m : ℚ)
  | moistureOptimal (m : ℚ)
  | moistureStillLow (m : ℚ)
  | moistureDropping
  | errorState
deriving DecidableEq

/-- The pre-step phase at the top of `SoilMoistureSensor::transition`
(src/main.rs lines 43-46): if `just_watered` is false the proposed reading
is applied, clamped below at 0; then `just_watered` is unconditionally
cleared. -/
def applyReading (s : SoilMoistureSensor) (new_moisture : ℚ) : SoilMoistureSensor :=
  let s1 := if !s.just_watered then { s with moisture_level := max new_moisture 0 } else s
  { s1 with just_watered := false }

/-- The per-state `match` of `SoilMoistureSensor::transition`
(src/main.rs lines 47-90), acting on the sensor after the pre-step phase. -/
def stateAction (s : SoilMoistureSensor) : SoilMoistureSensor × Option Msg :=
  match s.state with
  | .Monitoring =>
      let s2 := { s with animation_frame := (s.animation_frame + 1) % 2 }
      if s2.moisture_level < s2.threshold then
        ({ s2 with state := .Activating, animation_frame := 0 },
         some (.moistureLow s2.moisture_level))
      else
        (s2, none)
  | .Activating =>
      let s2 := { s with moisture_level := s.moisture_level + 15 }
      ({ s2 with state := .Adjusting, just_watered := true,
                 animation_frame := (s2.animation_frame + 1) % 2 },
       some (.watering s2.moisture_level))
  | .Adjusting =>
      let s2 := { s with animation_frame := 0 }
      if s2.moisture_level ≥ s2.threshold + 10 then
        ({ s2 with state := .Idle }, some (.moistureOptimal s2.moisture_level))
      else if s2.moisture_level < s2.threshold then
        ({ s2 with state := .Monitoring }, some (.moistureStillLow s2.moisture_level))
      else
        (s2, none)
  | .Idle =>
      let s2 := { s with animation_frame := 0 }
      if s2.moisture_level < s2.threshold then
        ({ s2 with state := .Monitoring }, some .moistureDropping)
      else
        (s2, none)
  | .Error =>
      ({ s with animation_frame := (s.animation_frame + 1) % 2 },
       some .errorState)

/-- One full step of `SoilMoistureSensor::transition` (src/main.rs lines
42-93): the pre-step reading phase followed by the per-state action.  The
1-second sleep at line 91 is pacing only and has no effect on the result. -/
def transition (s : SoilMoistureSensor) (new_moisture : ℚ) : SoilMoistureSensor × Option Msg :=
  stateAction (applyReading s new_moisture)

/-- Runs a sequence of transition steps and returns the final sensor. -/
def runSensor : SoilMoistureSensor → List ℚ → SoilMoistureSensor
  | s, [] => s
  | s, r :: rs => runSensor (transition s r).1 rs

/-- Counts, along a run, the steps that enter in state `Adjusting` and
leave in state `Idle`. -/
def countAdjToIdle : SoilMoistureSensor → List ℚ → Nat
  | _, [] => 0
  | s, r :: rs =>
      (if (transition s r).1.state = .Idle ∧ s.state = .Adjusting then 1 else 0)
        + countAdjToIdle (transition s r).1 rs

/-- The moisture value the per-state action sees on a step: the held-over
old value when `just_watered` is set, the clamped proposed reading
otherwise. -/
def effectiveMoisture (s : SoilMoistureSensor) (r : ℚ) : ℚ :=
  if s.just_watered then s.moisture_level else max r 0

/-- The terminal colors used by `style_line` (from `ratatui::style::Color`;
only the variants the code mentions). -/
inductive Color where
  | Yellow
  | Blue
  | Black
  | Cyan
  | White
  | Red
  | Rgb (r g b : Nat)
deriving DecidableEq

/-- A rendered line: the text of the glyph line and the foreground color
applied to it.  Models `ratatui::text::Line` built as
`Line::from(line).style(Style::default().fg(color))` in `style_line`. -/
structure StyledLine where
  content : String
  fg : Color
deriving DecidableEq

/-- Substring test, modelling Rust `str::contains` with a literal pattern:
the pattern occurs at some position of the haystack. -/
def strContains (hay pat : String) : Bool :=
  (List.range (hay.data.length + 1)).any fun i => pat.data.isPrefixOf (hay.data.drop i)

/-- The per-line styler (`style_line` in src/main.rs, lines 114-134). -/
def style_line (index : Nat) (line : String) (blink_frame : Nat)
    (state : DeviceState) : StyledLine :=
  match state with
  | .Monitoring => ⟨line, .Yellow⟩
  | .Activating => ⟨line, if blink_frame = 0 then .Blue else .Black⟩
  | .Adjusting => ⟨line, .Cyan⟩
  | .Idle =>
      if index = 11 ∨ (7 ≤ index ∧ index ≤ 9 ∧ strContains line " / " = true) then
        ⟨line, .White⟩
      else
        ⟨line, .Rgb 255 165 0⟩
  | .Error => ⟨line, if blink_frame = 0 then .Red else .Black⟩

lemma applyReading_eq (s : SoilMoistureSensor) (r : ℚ) :
    applyReading s r =
      { s with moisture_level := effectiveMoisture s r, just_watered := false } := by
  obtain ⟨st, m, t, jw, af⟩ := s
  cases jw <;> simp [applyReading, effectiveMoisture]

lemma transition_monitoring_low (s : SoilMoistureSensor) (r : ℚ)
    (h1 : s.state = .Monitoring) (h2 : effectiveMoisture s r < s.threshold) :
    transition s r =
      ({ s with state := .Activating, moisture_level := effectiveMoisture s r,
                just_watered := false, animation_frame := 0 },
       some (.moistureLow (effectiveMoisture s r))) := by
  obtain ⟨st, m, t, jw, af⟩ := s
  subst h1
  simp only [transition, applyReading_eq, stateAction]
  rw [if_pos h2]

lemma transition_monitoring_high (s : SoilMoistureSensor) (r : ℚ)
    (h1 : s.state = .Monitoring) (h2 : ¬ effectiveMoisture s r < s.threshold) :
    transition s r =
      ({ s with moisture_level := effectiveMoisture s r, just_watered := false,
                animation_frame := (s.animation_frame + 1) % 2 },
       none) := by
  obtain ⟨st, m, t, jw, af⟩ := s
  subst h1
  simp only [transition, applyReading_eq, stateAction]
  rw [if_neg h2]

lemma transition_activating (s : SoilMoistureSensor) (r : ℚ)
    (h : s.state = .Activating) :
    transition s r =
      ({ s with state := .Adjusting, moisture_level := effectiveMoisture s r + 15,
                just_watered := true, animation_frame := (s.animation_frame + 1) % 2 },
       some (.watering (effectiveMoisture s r + 15))) := by
  obtain ⟨st, m, t, jw, af⟩ := s
  subst h
  simp only [transition, applyReading_eq, stateAction]

lemma transition_adjusting_idle (s : SoilMoistureSensor) (r : ℚ)
    (h1 : s.state = .Adjusting) (h2 : effectiveMoisture s r ≥ s.threshold + 10) :
    transition s r =
      ({ s with state := .Idle, moisture_level := effectiveMoisture s r,
                just_watered := false, animation_frame := 0 },
       some (.moistureOptimal (effectiveMoisture s r))) := by
  obtain ⟨st, m, t, jw, af⟩ := s
  subst h1
  simp only [transition, applyReading_eq, stateAction]
  rw [if_pos h2]

lemma transition_adjusting_low (s : SoilMoistureSensor) (r : ℚ)
    (h1 : s.state = .Adjusting) (h2 : ¬ effectiveMoisture s r ≥ s.threshold + 10)
    (h3 : effectiveMoisture s r < s.threshold) :
    transition s r =
      ({ s with state := .Monitoring, moisture_level := effectiveMoisture s r,
                just_watered := false, animation_frame := 0 },
       some (.moistureStillLow (effectiveMoisture s r))) := by
  obtain ⟨st, m, t, jw, af⟩ := s
  subst h1
  simp only [transition, applyReading_eq, stateAction]
  rw [if_neg h2, if_pos h3]

lemma transition_adjusting_stay (s : SoilMoistureSensor) (r : ℚ)
    (h1 : s.state = .Adjusting) (h2 : ¬ effectiveMoisture s r ≥ s.threshold + 10)
    (h3 : ¬ effectiveMoisture s r < s.threshold) :
    transition s r =
      ({ s with moisture_level := effectiveMoisture s r, just_watered := false,
                animation_frame := 0 },
       none) := by
  obtain ⟨st, m, t, jw, af⟩ := s
  subst h1
  simp only [transition, applyReading_eq, stateAction]
  rw [if_neg h2, if_neg h3]

lemma transition_idle_low (s : SoilMoistureSensor) (r : ℚ)
    (h1 : s.state = .Idle) (h2 : effectiveMoisture s r < s.threshold) :
    transition s r =
      ({ s with state := .Monitoring, moisture_level := effectiveMoisture s r,
                just_watered := false, animation_frame := 0 },
       some .moistureDropping) := by
  obtain ⟨st, m, t, jw, af⟩ := s
  subst h1
  simp only [transition, applyReading_eq, stateAction]
  rw [if_pos h2]

lemma transition_idle_stay (s : SoilMoistureSensor) (r : ℚ)
    (h1 : s.state = .Idle) (h2 : ¬ effectiveMoisture s r < s.threshold) :
    transition s r =
      ({ s with moisture_level := effectiveMoisture s r, just_watered := false,
                animation_frame := 0 },
       none) := by
  obtain ⟨st, m, t, jw, af⟩ := s
  subst h1
  simp only [transition, applyReading_eq, stateAction]
  rw [if_neg h2]

lemma transition_error_step (s : SoilMoistureSensor) (r : ℚ)
    (h : s.state = .Error) :
    transition s r =
      ({ s with moisture_level := effectiveMoisture s r, just_watered := false,
                animation_frame := (s.animation_frame + 1) % 2 },
       some .errorState) := by
  obtain ⟨st, m, t, jw, af⟩ := s
  subst h
  simp only [transition, applyReading_eq, stateAction]

lemma transition_threshold_eq (s : SoilMoistureSensor) (r : ℚ) :
    (transition s r).1.threshold = s.threshold := by
  obtain ⟨st, m, t, jw, af⟩ := s
  cases st <;> cases jw <;>
    simp only [transition, applyReading, stateAction, effectiveMoisture] <;>
    (try split_ifs) <;> simp_all

lemma transition_just_watered_eq (s : SoilMoistureSensor) (r : ℚ) :
    (transition s r).1.just_watered = decide (s.state = .Activating) := by
  obtain ⟨st, m, t, jw, af⟩ := s
  cases st <;> cases jw <;>
    simp only [transition, applyReading, stateAction, effectiveMoisture] <;>
    (try split_ifs) <;> simp_all

lemma transition_state_activating (s : SoilMoistureSensor) (r : ℚ)
    (h : s.state = .Activating) : (transition s r).1.state = .Adjusting := by
  rw [transition_activating s r h]

lemma transition_moisture_cases (s : SoilMoistureSensor) (r : ℚ) :
    (transition s r).1.moisture_level = effectiveMoisture s r ∨
      (transition s r).1.moisture_level = effectiveMoisture s r + 15 := by
  obtain ⟨st, m, t, jw, af⟩ := s
  cases st <;> cases jw <;>
    simp only [transition, applyReading, stateAction, effectiveMoisture] <;>
    (try split_ifs) <;> simp_all

lemma effectiveMoisture_nonneg (s : SoilMoistureSensor) (r : ℚ)
    (h : 0 ≤ s.moisture_level) : 0 ≤ effectiveMoisture s r := by
  unfold effectiveMoisture
  split
  · exact h
  · exact le_max_right r 0

lemma transition_anim_binary (s : SoilMoistureSensor) (r : ℚ) :
    (transition s r).1.animation_frame = 0 ∨ (transition s r).1.animation_frame = 1 := by
  obtain ⟨st, m, t, jw, af⟩ := s
  cases st <;> cases jw <;>
    simp only [transition, applyReading, stateAction] <;>
    (try split_ifs) <;> simp_all [Nat.mod_two_eq_zero_or_one]

lemma transition_state_indep_anim (s : SoilMoistureSensor) (r : ℚ) (a : Nat) :
    (transition { s with animation_frame := a } r).1.state = (transition s r).1.state := by
  obtain ⟨st, m, t, jw, af⟩ := s
  cases st <;> cases jw <;>
    simp only [transition, applyReading, stateAction, effectiveMoisture] <;>
    (try split_ifs) <;> simp_all

lemma transition_msg_indep_anim (s : SoilMoistureSensor) (r : ℚ) (a : Nat) :
    (transition { s with animation_frame := a } r).2 = (transition s r).2 := by
  obtain ⟨st, m, t, jw, af⟩ := s
  cases st <;> cases jw <;>
    simp only [transition, applyReading, stateAction, effectiveMoisture] <;>
    (try split_ifs) <;> simp_all

lemma error_run (s : SoilMoistureSensor) (rs : List ℚ) (h : s.state = .Error) :
    (runSensor s rs).state = .Error := by
  induction rs generalizing s with
  | nil => exact h
  | cons r rs ih =>
      simp only [runSensor]
      refine ih _ ?_
      rw [transition_error_step s r h]
      exact h

/-- Claim C3: the step begins by, if `just_watered` is false, setting the
moisture to `max(proposed, 0)` and, if `just_watered` is true, leaving the
moisture unchanged; in both cases `just_watered` is set to false by this
pre-step phase before the per-state action runs, so the suppression lasts
exactly one tick. -/
theorem claim_pre_step (s : SoilMoistureSensor) (r : ℚ) :
    (s.just_watered = false → (applyReading s r).moisture_level = max r 0) ∧
    (s.just_watered = true → (applyReading s r).moisture_level = s.moisture_level) ∧
    (applyReading s r).just_watered = false ∧
    transition s r = stateAction (applyReading s r) := by
  obtain ⟨st, m, t, jw, af⟩ := s
  cases jw <;> simp [applyReading, transition]

/-- Witness for `claim_pre_step` at concrete sensors, exercising both the
applied-reading case and the held-over case. -/
theorem claim_pre_step_witness :
    (applyReading (SoilMoistureSensor.new 30) 29).moisture_level = max 29 0 ∧
    (applyReading ⟨.Adjusting, 44, 30, true, 0⟩ 5).moisture_level = 44 := by
  constructor
  · exact (claim_pre_step (SoilMoistureSensor.new 30) 29).1 rfl
  · exact (claim_pre_step ⟨.Adjusting, 44, 30, true, 0⟩ 5).2.1 rfl

/-- Claim C9: a step never modifies `threshold`, and the threshold after
construction equals the argument of `new`. -/
theorem claim_threshold_frame (s : SoilMoistureSensor) (r t : ℚ) :
    (transition s r).1.threshold = s.threshold ∧
    (SoilMoistureSensor.new t).threshold = t :=
  ⟨transition_threshold_eq s r, rfl⟩

/-- Claim C10: after every step, `just_watered` is true iff the step
entered with state `Activating`; and `just_watered` being true after a
step forces the post-step state to be `Adjusting`. -/
theorem claim_just_watered_iff (s : SoilMoistureSensor) (r : ℚ) :
    ((transition s r).1.just_watered = true ↔ s.state = .Activating) ∧
    ((transition s r).1.just_watered = true → (transition s r).1.state = .Adjusting) := by
  constructor
  · rw [transition_just_watered_eq]
    simp
  · intro h
    rw [transition_just_watered_eq] at h
    simp at h
    exact transition_state_activating s r h

/-- Witness for `claim_just_watered_iff` at a concrete `Activating`
sensor. -/
theorem claim_just_watered_iff_witness :
    (transition ⟨.Activating, 29, 30, false, 0⟩ 29).1.state = .Adjusting :=
  (claim_just_watered_iff ⟨.Activating, 29, 30, false, 0⟩ 29).2
    (by rw [transition_just_watered_eq]; decide)

/-- Claim C4: `Error` is a sink state: every step from it keeps the state
`Error`, toggles the animation frame and returns the error message, and no
sequence of steps leaves `Error`. -/
theorem claim_error_sink (s : SoilMoistureSensor) (r : ℚ) (rs : List ℚ)
    (h : s.state = .Error) :
    (transition s r).1.state = .Error ∧
    (transition s r).1.animation_frame = (s.animation_frame + 1) % 2 ∧
    (transition s r).2 = some Msg.errorState ∧
    (runSensor s rs).state = .Error := by
  refine ⟨?_, ?_, ?_, error_run s rs h⟩
  · rw [transition_error_step s r h]
    exact h
  · rw [transition_error_step s r h]
  · rw [transition_error_step s r h]

/-- Witness for `claim_error_sink` at a concrete `Error` sensor and a
concrete reading sequence. -/
theorem claim_error_sink_witness :
    (transition ⟨.Error, 50, 30, false, 0⟩ 1).1.state = .Error ∧
    (transition ⟨.Error, 50, 30, false, 0⟩ 1).1.animation_frame = 1 ∧
    (transition ⟨.Error, 50, 30, false, 0⟩ 1).2 = some Msg.errorState ∧
    (runSensor ⟨.Error, 50, 30, false, 0⟩ [1, 2, 3]).state = .Error := by
  have h := claim_error_sink ⟨.Error, 50, 30, false, 0⟩ 1 [1, 2, 3] rfl
  exact ⟨h.1, h.2.1, h.2.2.1, h.2.2.2⟩

/-- Claim C5: starting from nonnegative moisture, every step keeps the
moisture nonnegative (the reading is clamped below at 0), but there is no
upper clamp: the `Activating` step's +15 can push the moisture past 100,
witnessed by a concrete sensor at 95 stepping to 110. -/
theorem claim_moisture_clamp (s : SoilMoistureSensor) (r : ℚ)
    (h : 0 ≤ s.moisture_level) :
    0 ≤ (transition s r).1.moisture_level ∧
    (transition ⟨.Activating, 95, 30, false, 0⟩ 95).1.moisture_level > 100 := by
  constructor
  · rcases transition_moisture_cases s r with hc | hc <;> rw [hc]
    · exact effectiveMoisture_nonneg s r h
    · have := effectiveMoisture_nonneg s r h
      linarith
  · rw [transition_activating _ _ rfl]
    show (100 : ℚ) < effectiveMoisture _ _ + 15
    rw [effectiveMoisture]
    simp only [Bool.false_eq_true, if_false]
    rw [max_eq_left (by norm_num : (0 : ℚ) ≤ 95)]
    norm_num

/-- Witness for `claim_moisture_clamp`: a negative proposed reading still
yields nonnegative post-step moisture. -/
theorem claim_moisture_clamp_witness :
    0 ≤ (transition (SoilMoistureSensor.new 30) (-5)).1.moisture_level :=
  (claim_moisture_clamp (SoilMoistureSensor.new 30) (-5)
    (by norm_num [SoilMoistureSensor.new])).1

lemma effectiveMoisture_not_watered (s : SoilMoistureSensor) (r : ℚ)
    (h : s.just_watered = false) : effectiveMoisture s r = max r 0 := by
  simp [effectiveMoisture, h]

lemma transition_adjusting_moisture (s : SoilMoistureSensor) (r : ℚ)
    (h : s.state = .Adjusting) :
    (transition s r).1.moisture_level = effectiveMoisture s r := by
  by_cases h2 : effectiveMoisture s r ≥ s.threshold + 10
  · rw [transition_adjusting_idle s r h h2]
  · by_cases h3 : effectiveMoisture s r < s.threshold
    · rw [transition_adjusting_low s r h h2 h3]
    · rw [transition_adjusting_stay s r h h2 h3]

/-- Claim C6: in state `Monitoring`, if the effective moisture is below the
threshold the step moves to `Activating`, leaves the animation frame at 0
and returns the low-moisture message; otherwise it toggles the animation
frame, stays in `Monitoring` and returns no message. -/
theorem claim_monitoring_step (s : SoilMoistureSensor) (r : ℚ)
    (h : s.state = .Monitoring) :
    (effectiveMoisture s r < s.threshold →
      (transition s r).1.state = .Activating ∧
      (transition s r).1.animation_frame = 0 ∧
      (transition s r).2 = some (Msg.moistureLow (effectiveMoisture s r))) ∧
    (¬ effectiveMoisture s r < s.threshold →
      (transition s r).1.state = .Monitoring ∧
      (transition s r).1.animation_frame = (s.animation_frame + 1) % 2 ∧
      (transition s r).2 = none) := by
  constructor
  · intro h2
    rw [transition_monitoring_low s r h h2]
    exact ⟨rfl, rfl, rfl⟩
  · intro h2
    rw [transition_monitoring_high s r h h2]
    exact ⟨h, rfl, rfl⟩

/-- Witness for `claim_monitoring_step`: both branches at concrete
sensors, with readings 29 (below threshold 30) and 50 (above it). -/
theorem claim_monitoring_step_witness :
    (transition (SoilMoistureSensor.new 30) 29).1.state = .Activating ∧
    (transition (SoilMoistureSensor.new 30) 50).2 = none := by
  constructor
  · refine ((claim_monitoring_step (SoilMoistureSensor.new 30) 29 rfl).1 ?_).1
    rw [effectiveMoisture_not_watered _ _ rfl,
      max_eq_left (by norm_num : (0 : ℚ) ≤ 29)]
    norm_num [SoilMoistureSensor.new]
  · refine ((claim_monitoring_step (SoilMoistureSensor.new 30) 50 rfl).2 ?_).2.2
    rw [effectiveMoisture_not_watered _ _ rfl,
      max_eq_left (by norm_num : (0 : ℚ) ≤ 50)]
    norm_num [SoilMoistureSensor.new]

/-- Claim C7: starting from an animation frame in {0, 1}, the post-step
animation frame is again in {0, 1}; and the next state and the returned
message are independent of the entry animation frame. -/
theorem claim_animation_phase (s : SoilMoistureSensor) (r : ℚ) (a b : Nat)
    (h : s.animation_frame = 0 ∨ s.animation_frame = 1) :
    ((transition s r).1.animation_frame = 0 ∨
      (transition s r).1.animation_frame = 1) ∧
    (transition { s with animation_frame := a } r).1.state
      = (transition { s with animation_frame := b } r).1.state ∧
    (transition { s with animation_frame := a } r).2
      = (transition { s with animation_frame := b } r).2 := by
  refine ⟨transition_anim_binary s r, ?_, ?_⟩
  · rw [transition_state_indep_anim s r a, transition_state_indep_anim s r b]
  · rw [transition_msg_indep_anim s r a, transition_msg_indep_anim s r b]

/-- Witness for `claim_animation_phase` at a concrete sensor. -/
theorem claim_animation_phase_witness :
    ((transition (SoilMoistureSensor.new 30) 50).1.animation_frame = 0 ∨
      (transition (SoilMoistureSensor.new 30) 50).1.animation_frame = 1) :=
  (claim_animation_phase (SoilMoistureSensor.new 30) 50 0 1 (Or.inl rfl)).1

/-- Claim C8: the styler never alters a line's text; in `Idle` it colors
exactly line 11 and lines 7 to 9 containing the 3-character substring
" / " with the center color (white) and every other line with the petal
color; `Monitoring` and `Adjusting` use one fixed color independent of
the animation frame, while `Activating` and `Error` alternate colors with
the animation frame. -/
theorem claim_style_line (i : Nat) (l : String) (p q : Nat) (st : DeviceState) :
    (style_line i l p st).content = l ∧
    ((style_line i l p .Idle).fg =
      if i = 11 ∨ (7 ≤ i ∧ i ≤ 9 ∧ strContains l " / " = true) then Color.White
      else Color.Rgb 255 165 0) ∧
    (style_line i l p .Monitoring).fg = Color.Yellow ∧
    (style_line i l p .Adjusting).fg = Color.Cyan ∧
    style_line i l p .Monitoring = style_line i l q .Monitoring ∧
    style_line i l p .Adjusting = style_line i l q .Adjusting ∧
    (style_line i l 0 .Activating).fg ≠ (style_line i l 1 .Activating).fg ∧
    (style_line i l 0 .Error).fg ≠ (style_line i l 1 .Error).fg := by
  refine ⟨?_, ?_, rfl, rfl, rfl, rfl, ?_, ?_⟩
  · cases st <;> simp only [style_line] <;> (try split) <;> rfl
  · simp only [style_line]
    split <;> simp_all
  · simp [style_line]
  · simp [style_line]

lemma chain_le_of_mem {a b : ℚ} {l : List ℚ}
    (h : List.Chain (· ≤ ·) a l) (hb : b ∈ l) : a ≤ b := by
  induction l generalizing a with
  | nil => cases hb
  | cons c t ih =>
      rw [List.chain_cons] at h
      rcases List.mem_cons.mp hb with rfl | hb2
      · exact h.1
      · exact le_trans h.1 (ih h.2 hb2)

lemma chain_map_max {a : ℚ} {l : List ℚ} (h : List.Chain (· ≤ ·) a l) :
    List.Chain (· ≤ ·) (max a 0) (l.map fun x => max x 0) := by
  induction l generalizing a with
  | nil => exact List.Chain.nil
  | cons b t ih =>
      rw [List.chain_cons] at h
      simp only [List.map_cons]
      rw [List.chain_cons]
      exact ⟨max_le_max h.1 le_rfl, ih h.2⟩

lemma chain_head_le {a b : ℚ} {l : List ℚ} (hab : a ≤ b)
    (h : List.Chain (· ≤ ·) b l) : List.Chain (· ≤ ·) a l := by
  cases l with
  | nil => exact List.Chain.nil
  | cons c t =>
      rw [List.chain_cons] at h ⊢
      exact ⟨le_trans hab h.1, h.2⟩

lemma idle_run (s : SoilMoistureSensor) (rs : List ℚ)
    (h1 : s.state = .Idle) (h2 : s.just_watered = false)
    (h3 : ∀ x ∈ rs, s.threshold ≤ max x 0) :
    (runSensor s rs).state = .Idle ∧ countAdjToIdle s rs = 0 := by
  induction rs generalizing s with
  | nil => exact ⟨h1, rfl⟩
  | cons r rs ih =>
      have ht : s.threshold ≤ max r 0 := h3 r (List.mem_cons_self r rs)
      have he : effectiveMoisture s r = max r 0 := effectiveMoisture_not_watered s r h2
      have hstay := transition_idle_stay s r h1 (by rw [he]; exact not_lt.mpr ht)
      obtain ⟨hA, hB⟩ := ih ((transition s r).1)
        (by rw [hstay]; exact h1)
        (by rw [hstay])
        (by rw [hstay]; exact fun x hx => h3 x (List.mem_cons_of_mem r hx))
      refine ⟨hA, ?_⟩
      rw [countAdjToIdle, hB]
      have : ¬ ((transition s r).1.state = DeviceState.Idle ∧
          s.state = DeviceState.Adjusting) := by
        rintro ⟨-, hadj⟩
        rw [h1] at hadj
        cases hadj
      rw [if_neg this]

lemma adjusting_hyst_aux (rs : List ℚ) :
    ∀ s : SoilMoistureSensor,
      s.state = .Adjusting → s.just_watered = false →
      s.threshold ≤ s.moisture_level → s.moisture_level < s.threshold + 10 →
      List.Chain (· ≤ ·) s.moisture_level (rs.map fun x => max x 0) →
      ((∀ x ∈ rs, max x 0 < s.threshold + 10) →
        (runSensor s rs).state = .Adjusting ∧ countAdjToIdle s rs = 0) ∧
      ((∃ x ∈ rs, s.threshold + 10 ≤ max x 0) →
        (runSensor s rs).state = .Idle ∧ countAdjToIdle s rs = 1) := by
  induction rs with
  | nil =>
      intro s h1 _ _ _ _
      exact ⟨fun _ => ⟨h1, rfl⟩, fun hx => absurd hx (by simp)⟩
  | cons r rs ih =>
      intro s h1 h2 h3 h4 h5
      simp only [List.map_cons, List.chain_cons] at h5
      obtain ⟨hmr, hchain⟩ := h5
      have he : effectiveMoisture s r = max r 0 := effectiveMoisture_not_watered s r h2
      by_cases hup : s.threshold + 10 ≤ max r 0
      · have hstep := transition_adjusting_idle s r h1 (by rw [he]; exact hup)
        have hten : s.threshold ≤ s.threshold + 10 := by linarith
        have hpost : ∀ x ∈ rs, s.threshold ≤ max x 0 := by
          intro x hx
          have : max r 0 ≤ max x 0 :=
            chain_le_of_mem hchain (List.mem_map_of_mem _ hx)
          exact le_trans hten (le_trans hup this)
        obtain ⟨hA, hB⟩ := idle_run ((transition s r).1) rs
          (by rw [hstep])
          (by rw [hstep])
          (by rw [hstep]; exact hpost)
        constructor
        · intro hall
          exact absurd (hall r (List.mem_cons_self r rs)) (not_lt.mpr hup)
        · intro _
          refine ⟨hA, ?_⟩
          rw [countAdjToIdle, hB]
          have hcond : (transition s r).1.state = DeviceState.Idle ∧
              s.state = DeviceState.Adjusting := ⟨by rw [hstep], h1⟩
          rw [if_pos hcond]
      · have hlo : s.threshold ≤ max r 0 := le_trans h3 hmr
        have hstep := transition_adjusting_stay s r h1
          (by rw [he]; exact hup) (by rw [he]; exact not_lt.mpr hlo)
        have hnotidle : ¬ ((transition s r).1.state = DeviceState.Idle ∧
            s.state = DeviceState.Adjusting) := by
          rintro ⟨hid, -⟩
          rw [hstep] at hid
          rw [h1] at hid
          cases hid
        obtain ⟨ihA, ihB⟩ := ih ((transition s r).1)
          (by rw [hstep]; exact h1)
          (by rw [hstep])
          (by rw [hstep]; show s.threshold ≤ effectiveMoisture s r; rw [he]; exact hlo)
          (by rw [hstep]; show effectiveMoisture s r < s.threshold + 10
              rw [he]; exact not_le.mp hup)
          (by rw [hstep]; show List.Chain _ (effectiveMoisture s r) _
              rw [he]; exact hchain)
        constructor
        · intro hall
          obtain ⟨hA, hB⟩ := ihA (fun x hx => by
            rw [hstep]
            show max x 0 < s.threshold + 10
            exact hall x (List.mem_cons_of_mem r hx))
          refine ⟨hA, ?_⟩
          rw [countAdjToIdle, hB, if_neg hnotidle]
        · rintro ⟨x, hx, hgex⟩
          rcases List.mem_cons.mp hx with rfl | hx2
          · exact absurd hgex hup
          · obtain ⟨hA, hB⟩ := ihB ⟨x, hx2, by rw [hstep]; exact hgex⟩
            refine ⟨hA, ?_⟩
            rw [countAdjToIdle, hB, if_neg hnotidle]

/-- Claim C2: in state `Adjusting`, a step whose effective moisture is at
least `threshold + 10` moves to `Idle` with a message; one whose effective
moisture is below `threshold` moves to `Monitoring` with a message;
otherwise the state stays `Adjusting` and no message is emitted.
Consequently, starting in `Adjusting` with moisture in
`[threshold, threshold + 10)` and feeding a non-decreasing sequence of
moisture readings, the state remains `Adjusting` while the applied
readings stay below `threshold + 10`, and exactly one
`Adjusting`-to-`Idle` transition occurs once a reading reaches it. -/
theorem claim_adjusting_hysteresis (s : SoilMoistureSensor) (r : ℚ) (rs : List ℚ) :
    (s.state = .Adjusting →
      (s.threshold + 10 ≤ effectiveMoisture s r →
        (transition s r).1.state = .Idle ∧ (transition s r).2.isSome = true) ∧
      (effectiveMoisture s r < s.threshold →
        (transition s r).1.state = .Monitoring ∧ (transition s r).2.isSome = true) ∧
      (s.threshold ≤ effectiveMoisture s r → effectiveMoisture s r < s.threshold + 10 →
        (transition s r).1.state = .Adjusting ∧ (transition s r).2 = none)) ∧
    (s.state = .Adjusting → s.just_watered = false →
      s.threshold ≤ s.moisture_level → s.moisture_level < s.threshold + 10 →
      List.Chain (· ≤ ·) s.moisture_level rs →
      ((∀ x ∈ rs, max x 0 < s.threshold + 10) →
        (runSensor s rs).state = .Adjusting ∧ countAdjToIdle s rs = 0) ∧
      ((∃ x ∈ rs, s.threshold + 10 ≤ max x 0) →
        (runSensor s rs).state = .Idle ∧ countAdjToIdle s rs = 1)) := by
  constructor
  · intro h1
    refine ⟨?_, ?_, ?_⟩
    · intro h2
      rw [transition_adjusting_idle s r h1 h2]
      exact ⟨rfl, rfl⟩
    · intro h2
      have hnot : ¬ effectiveMoisture s r ≥ s.threshold + 10 := by
        intro hx
        have : s.threshold + 10 ≤ effectiveMoisture s r := hx
        linarith
      rw [transition_adjusting_low s r h1 hnot h2]
      exact ⟨rfl, rfl⟩
    · intro h2 h3
      rw [transition_adjusting_stay s r h1 (not_le.mpr h3) (not_lt.mpr h2)]
      exact ⟨h1, rfl⟩
  · intro h1 h2 h3 h4 h5
    exact adjusting_hyst_aux rs s h1 h2 h3 h4
      (chain_head_le (le_max_left _ 0) (chain_map_max h5))

/-- Witness for `claim_adjusting_hysteresis`: threshold 30, moisture 35,
readings 36 then 41; exactly one transition to `Idle` occurs. -/
theorem claim_adjusting_hysteresis_witness :
    (runSensor ⟨.Adjusting, 35, 30, false, 0⟩ [36, 41]).state = .Idle ∧
    countAdjToIdle ⟨.Adjusting, 35, 30, false, 0⟩ [36, 41] = 1 := by
  have h := (claim_adjusting_hysteresis ⟨.Adjusting, 35, 30, false, 0⟩ 36 [36, 41]).2
    rfl rfl (by norm_num) (by norm_num)
    (by rw [List.chain_cons, List.chain_cons]
        norm_num)
  exact h.2 ⟨41, by simp, le_trans (by norm_num) (le_max_left 41 0)⟩

/-- Claim C1 is false on the code: from a fresh sensor (threshold 30,
state `Monitoring`), the reading 29 transitions to `Activating` with
resulting moisture 29, but stepping next with proposed reading 0 yields
moisture 15, not 29 + 15 = 44 — the watering tick applies the external
reading before adding 15, so the result is not independent of it. -/
theorem claim_watering_suppression_cex :
    (SoilMoistureSensor.new 30).state = .Monitoring ∧
    (transition (SoilMoistureSensor.new 30) 29).1.state = .Activating ∧
    (transition (SoilMoistureSensor.new 30) 29).1.moisture_level = 29 ∧
    (transition (transition (SoilMoistureSensor.new 30) 29).1 0).1.moisture_level = 15 ∧
    (15 : ℚ) ≠ 29 + 15 := by
  have e1 : effectiveMoisture (SoilMoistureSensor.new 30) 29 = 29 := by
    rw [effectiveMoisture_not_watered _ _ rfl,
      max_eq_left (by norm_num : (0 : ℚ) ≤ 29)]
  have hlow : effectiveMoisture (SoilMoistureSensor.new 30) 29
      < (SoilMoistureSensor.new 30).threshold := by
    rw [e1]
    norm_num [SoilMoistureSensor.new]
  have h1 := transition_monitoring_low (SoilMoistureSensor.new 30) 29 rfl hlow
  have hs1 : (transition (SoilMoistureSensor.new 30) 29).1 =
      ⟨.Activating, 29, 30, false, 0⟩ := by
    rw [h1, e1]
    rfl
  refine ⟨rfl, by rw [hs1], by rw [hs1], ?_, by norm_num⟩
  have e2 : effectiveMoisture (transition (SoilMoistureSensor.new 30) 29).1 0 = 0 := by
    rw [effectiveMoisture_not_watered _ _ (by rw [hs1]), max_self]
  rw [transition_activating _ 0 (by rw [hs1]), e2]
  norm_num

/-- Claim C1 (amended): for every sensor in `Monitoring` whose step
transitions it to `Activating`, the immediately following step yields
moisture `max(proposed, 0) + 15` where `proposed` is the reading passed
to that following step — the external reading is applied before the +15
bump, so the result is not independent of it.  The reading suppression
instead happens one tick later: the step after the watering one leaves
the watered moisture unchanged regardless of its proposed reading. -/
theorem claim_watering_amended (s : SoilMoistureSensor) (r r2 r3 : ℚ)
    (h1 : s.state = .Monitoring) (h2 : (transition s r).1.state = .Activating) :
    (transition (transition s r).1 r2).1.moisture_level = max r2 0 + 15 ∧
    (transition (transition s r).1 r2).1.just_watered = true ∧
    (transition (transition (transition s r).1 r2).1 r3).1.moisture_level
      = max r2 0 + 15 := by
  have hjw : (transition s r).1.just_watered = false := by
    rw [transition_just_watered_eq, h1]
    rfl
  have he2 : effectiveMoisture (transition s r).1 r2 = max r2 0 :=
    effectiveMoisture_not_watered _ _ hjw
  have hstep2 := transition_activating (transition s r).1 r2 h2
  refine ⟨by rw [hstep2, he2], by rw [hstep2], ?_⟩
  have hjw2 : (transition (transition s r).1 r2).1.just_watered = true := by
    rw [hstep2]
  have hst2 : (transition (transition s r).1 r2).1.state = .Adjusting := by
    rw [hstep2]
  have he3 : effectiveMoisture (transition (transition s r).1 r2).1 r3
      = (transition (transition s r).1 r2).1.moisture_level := by
    simp [effectiveMoisture, hjw2]
  rw [transition_adjusting_moisture _ r3 hst2, he3, hstep2]
  show effectiveMoisture (transition s r).1 r2 + 15 = max r2 0 + 15
  rw [he2]

/-- Witness for `claim_watering_amended`: the concrete run from a fresh
sensor with readings 29, 0, 5. -/
theorem claim_watering_amended_witness :
    (transition (transition (SoilMoistureSensor.new 30) 29).1 0).1.moisture_level
      = max 0 0 + 15 := by
  have hlow : effectiveMoisture (SoilMoistureSensor.new 30) 29
      < (SoilMoistureSensor.new 30).threshold := by
    rw [effectiveMoisture_not_watered _ _ rfl,
      max_eq_left (by norm_num : (0 : ℚ) ≤ 29)]
    norm_num [SoilMoistureSensor.new]
  have hact : (transition (SoilMoistureSensor.new 30) 29).1.state = .Activating := by
    rw [transition_monitoring_low (SoilMoistureSensor.new 30) 29 rfl hlow]
  exact (claim_watering_amended (SoilMoistureSensor.new 30) 29 0 5 rfl hact).1

end AgriIot
